import Mathlib

/-!
Verification development for the MicroSelectIA candidate-job matching service.

The Python sources (`app/core/config.py`, `app/schemas/matching.py`,
`app/services/ai_matcher.py`, `app/services/matching_engine.py`) are shallowly
embedded below.  Python floats are modelled as rationals (`ℚ`), Python lists as
`List`, optional values as `Option`, and code that can raise as
`Except String`.  The sentence-transformer backend is treated as a black box by the service
logic; it enters the embedding as an uninterpreted similarity function
`sim : String → String → ℚ` (the raw cosine similarity of two encoded texts).
-/

namespace MicroSelect

/-! ### Python string primitives

Python string operations used by the service (`str.lower`, `str.strip`,
`str.join`, the `in` substring test, truthiness) are modelled on the character
lists underlying Lean strings.  `str.lower` is modelled on the ASCII range,
which covers the letters appearing in the keyword tables of the service.
-/

/-- Model of Python `str.lower` on one character: ASCII uppercase letters map to
lowercase, every other character is unchanged. -/
def pyCharLower (c : Char) : Char :=
  if 65 ≤ c.toNat ∧ c.toNat ≤ 90 then Char.ofNat (c.toNat + 32) else c

/-- Model of the whitespace test used by Python `str.strip`. -/
def pyIsSpace (c : Char) : Bool :=
  decide (c.toNat = 32 ∨ c.toNat = 9 ∨ c.toNat = 10 ∨ c.toNat = 13 ∨ c.toNat = 11 ∨ c.toNat = 12)

/-- Python `str.lower`. -/
def pyLower (s : String) : String :=
  ⟨s.data.map pyCharLower⟩

/-- Python `str.strip` on a character list: drop whitespace from both ends. -/
def pyStripList (l : List Char) : List Char :=
  ((l.dropWhile pyIsSpace).reverse.dropWhile pyIsSpace).reverse

/-- Python `str.strip`. -/
def pyStrip (s : String) : String :=
  ⟨pyStripList s.data⟩

/-- Python `s.lower().strip()`, the normalization applied to skill and location
tokens throughout the service. -/
def pyLowerStrip (s : String) : String :=
  pyStrip (pyLower s)

/-- Python substring test `needle in haystack`. -/
def pyIn (needle haystack : String) : Bool :=
  decide (needle.data <:+: haystack.data)

/-- Python `sep.join(parts)`. -/
def pyJoin (sep : String) (parts : List String) : String :=
  String.intercalate sep parts

/-- Python `int(q)` applied to a number: truncation toward zero. -/
def pyInt (q : ℚ) : ℤ :=
  if 0 ≤ q then q.floor else -((-q).floor)

/-- Python `x or ""` for an optional string. -/
def pyOrEmpty (o : Option String) : String :=
  o.getD ""

/-- Python truthiness of an optional string (`None` and `""` are falsy). -/
def pyTruthyStr : Option String → Bool
  | none => false
  | some s => decide (s ≠ "")

/-- Python truthiness of an optional number (`None` and `0` are falsy). -/
def pyTruthyNum : Option ℚ → Bool
  | none => false
  | some q => decide (q ≠ 0)

/-- Maximum of a list of rationals (`numpy.ndarray.max`); the service only
applies it to non-empty lists, the `[]` case is an arbitrary default. -/
def listMax : List ℚ → ℚ
  | [] => 0
  | [x] => x
  | x :: y :: t => max x (listMax (y :: t))

/-- Python `set(...)` of a list of strings, kept as a duplicate-free list
(Python set iteration order is unspecified, so any duplicate-free
representative is a faithful model). -/
def pySet (l : List String) : List String :=
  l.dedup

/-- Decimal rendering of a number in an f-string; the exact text matters to no
property below. -/
def pyNumStr (q : ℚ) : String :=
  toString q

/-! ### Schemas (`app/schemas/matching.py`)

The pydantic field constraints and the input-side skill-normalization
validators are not re-modelled: the matching engine re-normalizes every skill
token itself, and the claims below quantify over arbitrary field values (with
the schema constraint `experience_years ≥ 0` taken as a hypothesis where it
matters).
-/

/-- Enumeration `JobType`. -/
inductive JobType where
  | FULL_TIME
  | PART_TIME
  | CONTRACT
  | INTERNSHIP
deriving DecidableEq

/-- `EducationSchema`. -/
structure EducationSchema where
  degree : String
  institution : String
  field : Option String := none
  start_year : Option ℤ := none
  end_year : Option ℤ := none
deriving DecidableEq

/-- `ExperienceSchema`. -/
structure ExperienceSchema where
  company : String
  position : String
  description : Option String := none
  start_date : Option String := none
  end_date : Option String := none
  years : Option ℚ := none
deriving DecidableEq

/-- `CandidateSchema`. -/
structure CandidateSchema where
  id : String
  name : String
  skills : List String := []
  experience_years : ℚ := 0
  experience : List ExperienceSchema := []
  education : List EducationSchema := []
  languages : List String := []
  summary : Option String := none
  location : Option String := none
deriving DecidableEq

/-- `JobSchema`. -/
structure JobSchema where
  id : String
  title : String
  description : String
  skills : List String := []
  requirements : List String := []
  location : Option String := none
  type : JobType := JobType.FULL_TIME
  salary_min : Option ℤ := none
  salary_max : Option ℤ := none
  min_experience_years : Option ℚ := none
deriving DecidableEq

/-- `MatchBreakdown`. -/
structure MatchBreakdown where
  skills_match : ℚ
  experience_match : ℚ
  education_match : ℚ
  semantic_match : ℚ
  location_match : Option ℚ := none
deriving DecidableEq

/-- `SingleMatchResponse`. -/
structure SingleMatchResponse where
  candidate_id : String
  candidate_name : String
  job_id : String
  compatibility_score : ℚ
  match_percentage : ℤ
  breakdown : MatchBreakdown
  matched_skills : List String
  missing_skills : List String
  explanation : String
  recommendations : List String
  match_quality : String
deriving DecidableEq

/-- `RankedMatchResult`. -/
structure RankedMatchResult where
  candidate_id : String
  candidate_name : String
  compatibility_score : ℚ
  match_percentage : ℤ
  rank : ℕ
  breakdown : MatchBreakdown
  matched_skills : List String
  missing_skills : List String
  explanation : String
  recommendations : List String
  match_quality : String
deriving DecidableEq

/-! ### Configuration (`app/core/config.py`) -/

/-- The numeric fields of `Settings` that the matching engine consumes, with
the shipped default values (service/API string settings are omitted as no
logic reads them). -/
structure Settings where
  SKILLS_WEIGHT : ℚ := 0.40
  EXPERIENCE_WEIGHT : ℚ := 0.25
  SEMANTIC_WEIGHT : ℚ := 0.25
  EDUCATION_WEIGHT : ℚ := 0.10
  MIN_MATCH_SCORE : ℚ := 0.30
  GOOD_MATCH_SCORE : ℚ := 0.60
  EXCELLENT_MATCH_SCORE : ℚ := 0.80

/-- The process-wide `settings = Settings()` instance with the defaults. -/
def defaultSettings : Settings :=
  {}

/-- Dynamic attribute lookup on a `Settings` instance, as pydantic performs it:
a name that is not a declared field yields `none` (Python raises
`AttributeError` in that case). -/
def Settings.getattr (s : Settings) : String → Option ℚ
  | "SKILLS_WEIGHT" => some s.SKILLS_WEIGHT
  | "EXPERIENCE_WEIGHT" => some s.EXPERIENCE_WEIGHT
  | "SEMANTIC_WEIGHT" => some s.SEMANTIC_WEIGHT
  | "EDUCATION_WEIGHT" => some s.EDUCATION_WEIGHT
  | "MIN_MATCH_SCORE" => some s.MIN_MATCH_SCORE
  | "GOOD_MATCH_SCORE" => some s.GOOD_MATCH_SCORE
  | "EXCELLENT_MATCH_SCORE" => some s.EXCELLENT_MATCH_SCORE
  | _ => none

/-- Attribute read that raises `AttributeError` on a missing field. -/
def Settings.attr (s : Settings) (name : String) : Except String ℚ :=
  match s.getattr name with
  | some v => Except.ok v
  | none => Except.error ("AttributeError: " ++ name)

/-- `Settings.validate_weights`. -/
def Settings.validateWeights (s : Settings) : Bool :=
  decide (|s.SKILLS_WEIGHT + s.EXPERIENCE_WEIGHT + s.SEMANTIC_WEIGHT + s.EDUCATION_WEIGHT - 1| < 0.01)

/-- Module-level startup code of `app/core/config.py`: constructing the
settings raises `ValueError` when the weights do not validate. -/
def configInit (s : Settings) : Except String Settings :=
  if s.validateWeights then Except.ok s else Except.error "ValueError: Weights must sum to 1.0"

/-! ### AI matcher (`app/services/ai_matcher.py`) -/

/-- `AIMatcherService`.  The sentence transformer is kept abstract; `sim t u` stands
for the raw cosine similarity of the embeddings of `t` and `u` (mathematically
in `[-1, 1]`, but nothing below assumes that). -/
structure AIMatcherService where
  sim : String → String → ℚ

namespace AIMatcherService

/-- `calculate_similarity`: cosine similarity clamped into `[0, 1]`. -/
def calculateSimilarity (m : AIMatcherService) (text1 text2 : String) : ℚ :=
  max 0 (min 1 (m.sim text1 text2))

/-- `match_skills_semantic` (ai_matcher.py, lines 114-158): for each required
skill, the best cosine similarity over all candidate skills; matches at or
above the fixed 0.7 threshold are collected and averaged. -/
def matchSkillsSemantic (m : AIMatcherService) (candidateSkills jobSkills : List String) :
    ℚ × List String :=
  if candidateSkills = [] ∨ jobSkills = [] then (0, [])
  else
    let cand := candidateSkills.map pyLowerStrip
    let job := jobSkills.map pyLowerStrip
    let threshold : ℚ := 0.7
    let scored := job.map (fun js => (js, listMax (cand.map (fun cs => m.sim js cs))))
    let accepted := scored.filter (fun p => decide (threshold ≤ p.2))
    let matchedSkills := accepted.map Prod.fst
    let matchScores := accepted.map Prod.snd
    let avgScore := if matchScores = [] then 0 else matchScores.sum / (matchScores.length : ℚ)
    (avgScore, matchedSkills)

/-- `match_text_semantic`: `0.0` when either text is empty, clamped similarity
otherwise. -/
def matchTextSemantic (m : AIMatcherService) (candidateText jobText : String) : ℚ :=
  if candidateText = "" ∨ jobText = "" then 0
  else m.calculateSimilarity candidateText jobText

end AIMatcherService

/-! ### Matching engine (`app/services/matching_engine.py`) -/

/-- The education keyword vocabulary hard-coded in `calculate_education_match`. -/
def eduKeywordList : List String :=
  ["bachelor", "master", "phd", "doctorate", "degree",
   "licenciatura", "maestría", "doctorado", "título"]

/-- The remote-work keyword vocabulary hard-coded in `calculate_location_match`. -/
def remoteKeywordList : List String :=
  ["remote", "remoto", "anywhere", "cualquier lugar"]

/-- `MatchingEngine`: holds the process-wide settings and the AI matcher. -/
structure MatchingEngine where
  settings : Settings
  aiMatcher : AIMatcherService

namespace MatchingEngine

/-- `calculate_skills_match` (matching_engine.py, lines 29-74). -/
def calculateSkillsMatch (eng : MatchingEngine) (candidate : CandidateSchema) (job : JobSchema) :
    ℚ × List String × List String :=
  if job.skills = [] then (1, [], [])
  else
    let candidateSkills := pySet (candidate.skills.map pyLowerStrip)
    let jobSkills := pySet (job.skills.map pyLowerStrip)
    let matchedSkills := candidateSkills.filter (fun sk => jobSkills.contains sk)
    let missingSkills := jobSkills.filter (fun sk => !(candidateSkills.contains sk))
    let exactMatchScore : ℚ :=
      if jobSkills ≠ [] then (matchedSkills.length : ℚ) / (jobSkills.length : ℚ) else 0
    if missingSkills ≠ [] ∧ candidate.skills ≠ [] then
      let semanticRes := eng.aiMatcher.matchSkillsSemantic candidate.skills missingSkills
      let finalScore := exactMatchScore * 0.7 + semanticRes.1 * 0.3
      (min 1 finalScore, matchedSkills ++ semanticRes.2,
        missingSkills.filter (fun sk => !(semanticRes.2.contains sk)))
    else
      (min 1 exactMatchScore, matchedSkills, missingSkills)

/-- `calculate_experience_match` (matching_engine.py, lines 76-103). -/
def calculateExperienceMatch (candidate : CandidateSchema) (job : JobSchema) : ℚ :=
  match job.min_experience_years with
  | none => 1
  | some requiredExp =>
    if requiredExp = 0 then 1
    else
      let candidateExp := candidate.experience_years
      if requiredExp ≤ candidateExp then
        let excess := candidateExp - requiredExp
        let bonus := min 0.2 (excess / (requiredExp * 2))
        min 1 (1 + bonus)
      else
        max 0 (candidateExp / requiredExp)

/-- `calculate_education_match` (matching_engine.py, lines 105-144). -/
def calculateEducationMatch (eng : MatchingEngine) (candidate : CandidateSchema)
    (job : JobSchema) : ℚ :=
  if candidate.education = [] ∨ job.requirements = [] then 0.5
  else
    let jobReqsText := pyLower (pyJoin " " job.requirements)
    let hasEduRequirement := eduKeywordList.any (fun kw => pyIn kw jobReqsText)
    if ¬ hasEduRequirement then 1
    else
      let educationTexts := candidate.education.map
        (fun edu => edu.degree ++ " in " ++ pyOrEmpty edu.field ++ " from " ++ edu.institution)
      if educationTexts = [] then 0.3
      else
        let combinedEdu := pyJoin ". " educationTexts
        eng.aiMatcher.matchTextSemantic combinedEdu jobReqsText

/-- `calculate_semantic_match` (matching_engine.py, lines 146-181). -/
def calculateSemanticMatch (eng : MatchingEngine) (candidate : CandidateSchema)
    (job : JobSchema) : ℚ :=
  let summaryParts :=
    match candidate.summary with
    | some s => if s = "" then [] else [s]
    | none => []
  let expTexts :=
    if candidate.experience ≠ [] then
      candidate.experience.map
        (fun exp => exp.position ++ " at " ++ exp.company ++ ". " ++ pyOrEmpty exp.description)
    else []
  let candidateText := pyJoin " " (summaryParts ++ expTexts)
  let jobText := job.title ++ ". " ++ job.description ++ ". " ++ pyJoin " " job.requirements
  if candidateText = "" ∨ jobText = "" then 0.5
  else eng.aiMatcher.matchTextSemantic candidateText jobText

/-- `calculate_location_match` (matching_engine.py, lines 183-219). -/
def calculateLocationMatch (eng : MatchingEngine) (candidate : CandidateSchema)
    (job : JobSchema) : ℚ :=
  if ¬ pyTruthyStr job.location then 1
  else if ¬ pyTruthyStr candidate.location then 0.5
  else
    let candidateLoc := pyLowerStrip (pyOrEmpty candidate.location)
    let jobLoc := pyLowerStrip (pyOrEmpty job.location)
    if remoteKeywordList.any (fun kw => pyIn kw jobLoc) then 1
    else if candidateLoc = jobLoc then 1
    else if pyIn candidateLoc jobLoc ∨ pyIn jobLoc candidateLoc then 0.8
    else eng.aiMatcher.calculateSimilarity candidateLoc jobLoc * 0.6

/-- `calculate_overall_score` (matching_engine.py, lines 221-244). -/
def calculateOverallScore (eng : MatchingEngine) (breakdown : MatchBreakdown) : ℚ :=
  let score :=
    breakdown.skills_match * eng.settings.SKILLS_WEIGHT +
    breakdown.experience_match * eng.settings.EXPERIENCE_WEIGHT +
    breakdown.education_match * eng.settings.EDUCATION_WEIGHT +
    breakdown.semantic_match * eng.settings.SEMANTIC_WEIGHT
  match breakdown.location_match with
  | some locationMatch => min 1 (score + locationMatch * 0.05)
  | none => score

/-- `determine_match_quality` (matching_engine.py, lines 246-263).  The
threshold reads go through the dynamic attribute lookup because the attribute
names used here (`*_MATCH_THRESHOLD`) are not fields of `Settings` (which
declares `*_MATCH_SCORE`). -/
def determineMatchQuality (eng : MatchingEngine) (score : ℚ) : Except String String := do
  let excellentThreshold ← eng.settings.attr "EXCELLENT_MATCH_THRESHOLD"
  if excellentThreshold ≤ score then return "excellent"
  let goodThreshold ← eng.settings.attr "GOOD_MATCH_THRESHOLD"
  if goodThreshold ≤ score then return "good"
  let minThreshold ← eng.settings.attr "MIN_MATCH_THRESHOLD"
  if minThreshold ≤ score then return "medium"
  return "low"

/-- `generate_explanation` (matching_engine.py, lines 265-326). -/
def generateExplanation (eng : MatchingEngine) (candidate : CandidateSchema) (job : JobSchema)
    (breakdown : MatchBreakdown) (matchedSkills missingSkills : List String)
    (overallScore : ℚ) : Except String String := do
  let quality ← eng.determineMatchQuality overallScore
  let percentage := pyInt (overallScore * 100)
  let part1 := candidate.name ++ " tiene un " ++ toString percentage ++
    "% de compatibilidad con el puesto " ++ job.title ++ "."
  let parts2 :=
    if matchedSkills ≠ [] then
      ["Habilidades coincidentes: " ++ pyJoin ", " (matchedSkills.take 5) ++
        (if matchedSkills.length > 5 then " y más" else "") ++ "."]
    else []
  let parts3 :=
    if missingSkills ≠ [] then
      ["Habilidades por desarrollar: " ++ pyJoin ", " (missingSkills.take 3) ++
        (if missingSkills.length > 3 then " y otras" else "") ++ "."]
    else []
  let parts4 :=
    [if (0.8 : ℚ) ≤ breakdown.experience_match then
      "La experiencia del candidato supera los requisitos."
    else if (0.6 : ℚ) ≤ breakdown.experience_match then
      "La experiencia del candidato cumple con los requisitos."
    else
      "El candidato necesita más experiencia para este puesto."]
  let parts5 :=
    [if quality = "excellent" then "Candidato altamente recomendado para entrevista."
    else if quality = "good" then "Candidato recomendado para considerar."
    else if quality = "medium" then "Candidato con potencial, requiere evaluación adicional."
    else "Candidato no cumple con los requisitos mínimos."]
  return pyJoin " " ([part1] ++ parts2 ++ parts3 ++ parts4 ++ parts5)

/-- `generate_recommendations` (matching_engine.py, lines 328-377). -/
def generateRecommendations (candidate : CandidateSchema) (job : JobSchema)
    (breakdown : MatchBreakdown) (missingSkills : List String) : List String :=
  let recs1 :=
    if missingSkills ≠ [] then
      ["Desarrollar habilidades en: " ++ pyJoin ", " (missingSkills.take 3)]
    else []
  let recs2 :=
    if breakdown.experience_match < 0.7 ∧ pyTruthyNum job.min_experience_years = true then
      ["Ganar más experiencia relevante (ideal: " ++
        pyNumStr (job.min_experience_years.getD 0) ++ " años)"]
    else []
  let recs3 :=
    if breakdown.education_match < 0.6 then
      ["Considerar certificaciones o formación adicional relacionada con el puesto"]
    else []
  let recs4 :=
    if breakdown.semantic_match < 0.6 then
      ["Actualizar perfil profesional para resaltar experiencia relevante al puesto"]
    else []
  let recommendations := recs1 ++ recs2 ++ recs3 ++ recs4
  if recommendations = [] then ["Perfil muy completo, mantener actualizado"] else recommendations

/-- The `MatchBreakdown` value built inside `match_single` (matching_engine.py,
lines 393-406) from the five calculator results. -/
def matchSingleBreakdown (eng : MatchingEngine) (candidate : CandidateSchema)
    (job : JobSchema) : MatchBreakdown :=
  { skills_match := (eng.calculateSkillsMatch candidate job).1
    experience_match := calculateExperienceMatch candidate job
    education_match := eng.calculateEducationMatch candidate job
    semantic_match := eng.calculateSemanticMatch candidate job
    location_match := some (eng.calculateLocationMatch candidate job) }

/-- The overall score computed inside `match_single` (line 409). -/
def matchSingleOverall (eng : MatchingEngine) (candidate : CandidateSchema)
    (job : JobSchema) : ℚ :=
  eng.calculateOverallScore (eng.matchSingleBreakdown candidate job)

/-- `match_single` (matching_engine.py, lines 379-433).  The result is in
`Except` because `determine_match_quality` can raise. -/
def matchSingle (eng : MatchingEngine) (candidate : CandidateSchema) (job : JobSchema) :
    Except String SingleMatchResponse := do
  let skillsRes := eng.calculateSkillsMatch candidate job
  let breakdown := eng.matchSingleBreakdown candidate job
  let overallScore := eng.calculateOverallScore breakdown
  let matchPercentage := pyInt (overallScore * 100)
  let matchQuality ← eng.determineMatchQuality overallScore
  let explanation ←
    eng.generateExplanation candidate job breakdown skillsRes.2.1 skillsRes.2.2 overallScore
  let recommendations := generateRecommendations candidate job breakdown skillsRes.2.2
  return {
    candidate_id := candidate.id
    candidate_name := candidate.name
    job_id := job.id
    compatibility_score := overallScore
    match_percentage := matchPercentage
    breakdown := breakdown
    matched_skills := skillsRes.2.1
    missing_skills := skillsRes.2.2
    explanation := explanation
    recommendations := recommendations
    match_quality := matchQuality }

end MatchingEngine

/-- Stable insertion into a list sorted by descending key: the new element goes
after every element whose key is greater than or equal to its own. -/
def insertDescBy {α : Type _} (key : α → ℚ) (x : α) : List α → List α
  | [] => [x]
  | y :: ys => if key y < key x then x :: y :: ys else y :: insertDescBy key x ys

/-- Stable sort by descending key: the function computed by the stable Python
`list.sort(key, reverse=True)` (equal keys keep encounter order). -/
def stableSortDesc {α : Type _} (key : α → ℚ) (l : List α) : List α :=
  l.foldl (fun acc x => insertDescBy key x acc) []

/-- One step of Python dict counting: bump the count of a key in an association
list that preserves first-seen key order. -/
def bumpCount : List (String × ℕ) → String → List (String × ℕ)
  | [], s => [(s, 1)]
  | (k, n) :: rest, s => if k = s then (k, n + 1) :: rest else (k, n) :: bumpCount rest s

/-- The Python dict-based frequency count `skill_counts`, keys in first-seen
order. -/
def skillCounts (skills : List String) : List (String × ℕ) :=
  skills.foldl bumpCount []

namespace MatchingEngine

/-- `match_batch` (matching_engine.py, lines 435-493). -/
def matchBatch (eng : MatchingEngine) (candidates : List CandidateSchema) (job : JobSchema) :
    Except String (List RankedMatchResult × ℚ × List String) := do
  let matchResults ← candidates.mapM (fun c => eng.matchSingle c job)
  let allMatchedSkills := matchResults.foldl (fun acc mr => acc ++ mr.matched_skills) []
  let sortedMatches := stableSortDesc (fun mr => mr.compatibility_score) matchResults
  let rankedResults := sortedMatches.enum.map (fun p =>
    ({ candidate_id := p.2.candidate_id
       candidate_name := p.2.candidate_name
       compatibility_score := p.2.compatibility_score
       match_percentage := p.2.match_percentage
       rank := p.1 + 1
       breakdown := p.2.breakdown
       matched_skills := p.2.matched_skills
       missing_skills := p.2.missing_skills
       explanation := p.2.explanation
       recommendations := p.2.recommendations
       match_quality := p.2.match_quality } : RankedMatchResult))
  let averageScore :=
    if sortedMatches = [] then 0
    else ((sortedMatches.map (fun mr => mr.compatibility_score)).sum) / (sortedMatches.length : ℚ)
  let topSkills :=
    ((stableSortDesc (fun p => ((p.2 : ℕ) : ℚ)) (skillCounts allMatchedSkills)).take 10).map
      Prod.fst
  return (rankedResults, averageScore, topSkills)

end MatchingEngine

/-! ### Spec-side definitions

The definitions in this section restate, in the vocabulary of the specification, the quantities its sentences mention; the claim theorems below
compare them against the embedded code.
-/

/-- The required-skill set of the job: the required skill tokens, normalized and
deduplicated. -/
def specJobSet (job : JobSchema) : List String :=
  pySet (job.skills.map pyLowerStrip)

/-- The skill set of the candidate, same normalization. -/
def specCandSet (candidate : CandidateSchema) : List String :=
  pySet (candidate.skills.map pyLowerStrip)

/-- The required skills the candidate misses exactly. -/
def specMissing (candidate : CandidateSchema) (job : JobSchema) : List String :=
  (specJobSet job).filter (fun sk => !((specCandSet candidate).contains sk))

/-- The exactScore of the spec: size of the candidate-job skill intersection over
the size of the required-skill set of the job. -/
def specExactScore (candidate : CandidateSchema) (job : JobSchema) : ℚ :=
  (((specCandSet candidate).filter (fun sk => (specJobSet job).contains sk)).length : ℚ) /
    ((specJobSet job).length : ℚ)

/-- For each missing required skill, the best similarity over all of the
skills of the candidate. -/
def specBestSims (m : AIMatcherService) (candidateSkills missing : List String) : List ℚ :=
  (missing.map pyLowerStrip).map
    (fun js => listMax ((candidateSkills.map pyLowerStrip).map (fun cs => m.sim js cs)))

/-- The semanticScore of the spec: the mean of the best-match similarities that
reach the 0.7 acceptance threshold, `0.0` if none are accepted. -/
def specSemanticScore (m : AIMatcherService) (candidateSkills missing : List String) : ℚ :=
  let accepted := (specBestSims m candidateSkills missing).filter (fun v => decide ((0.7 : ℚ) ≤ v))
  if accepted = [] then 0 else accepted.sum / (accepted.length : ℚ)

/-- The requirement strings of the job contain at least one education keyword,
checked on the lower-cased joined requirement text as the code does. -/
def specHasEduRequirement (job : JobSchema) : Bool :=
  eduKeywordList.any (fun kw => pyIn kw (pyLower (pyJoin " " job.requirements)))

/-! ### Concrete instances used by counterexamples and witnesses -/

/-- A similarity provider whose raw cosine similarity is identically zero. -/
def zeroMatcher : AIMatcherService :=
  ⟨fun _ _ => 0⟩

/-- A similarity provider whose raw cosine similarity is identically 0.8. -/
def highMatcher : AIMatcherService :=
  ⟨fun _ _ => 0.8⟩

/-- An engine over the default settings and the zero provider. -/
def zeroEngine : MatchingEngine :=
  ⟨defaultSettings, zeroMatcher⟩

/-- A candidate with an empty education list. -/
def cexCandidateC2 : CandidateSchema :=
  { id := "c2", name := "Cand" }

/-- A job whose requirement text contains the education keyword `bachelor`. -/
def cexJobC2 : JobSchema :=
  { id := "j2", title := "Analyst", description := "Data role",
    requirements := ["bachelor degree required"] }

/-- A minimal batch job. -/
def cexJobC3 : JobSchema :=
  { id := "job-001", title := "Dev", description := "Backend role" }

/-- First candidate of the concrete batch. -/
def cexCandidateC3a : CandidateSchema :=
  { id := "cand-001", name := "Ana" }

/-- Second candidate of the concrete batch. -/
def cexCandidateC3b : CandidateSchema :=
  { id := "cand-002", name := "Luis" }

/-- Third candidate of the concrete batch. -/
def cexCandidateC3c : CandidateSchema :=
  { id := "cand-003", name := "Mar" }

/-- A candidate knowing exactly `python`. -/
def witCandidateC4 : CandidateSchema :=
  { id := "c4", name := "Cand", skills := ["python"] }

/-- A job requiring `python` and `postgresql`. -/
def witJobC4 : JobSchema :=
  { id := "j4", title := "Dev", description := "Role", skills := ["python", "postgresql"] }

/-- A job requiring exactly `python`. -/
def witJobC4b : JobSchema :=
  { id := "j4b", title := "Dev", description := "Role", skills := ["python"] }

/-- A job with no required skills. -/
def witJobNoSkills : JobSchema :=
  { id := "j0", title := "T", description := "D" }

/-- A candidate with zero years of experience. -/
def cexCandidateC5 : CandidateSchema :=
  { id := "c5", name := "Cand", experience_years := 0 }

/-- A job with the schema-permitted negative minimum experience `-1`. -/
def cexJobC5 : JobSchema :=
  { id := "j5", title := "Dev", description := "Role", min_experience_years := some (-1) }

/-- A candidate with five years of experience. -/
def witCandidateExp5 : CandidateSchema :=
  { id := "c5w", name := "Cand", experience_years := 5 }

/-- A job requiring three years of experience. -/
def witJobReq3 : JobSchema :=
  { id := "j3", title := "T", description := "D", min_experience_years := some 3 }

/-- A job requiring ten years of experience. -/
def witJobReq10 : JobSchema :=
  { id := "j10", title := "T", description := "D", min_experience_years := some 10 }

/-! ### Helper lemmas on the python string primitives -/

theorem char_toNat_ofNat_of_valid {n : ℕ} (h : n.isValidChar) : (Char.ofNat n).toNat = n := by
  unfold Char.ofNat
  rw [dif_pos h]
  rfl

theorem pyCharLower_toNat_of_upper {c : Char} (h : 65 ≤ c.toNat ∧ c.toNat ≤ 90) :
    (pyCharLower c).toNat = c.toNat + 32 := by
  unfold pyCharLower
  rw [if_pos h]
  exact char_toNat_ofNat_of_valid (Or.inl (by omega))

theorem pyCharLower_eq_self {c : Char} (h : ¬(65 ≤ c.toNat ∧ c.toNat ≤ 90)) :
    pyCharLower c = c := by
  unfold pyCharLower
  rw [if_neg h]

theorem pyCharLower_fix (c : Char) : pyCharLower (pyCharLower c) = pyCharLower c := by
  by_cases h : 65 ≤ c.toNat ∧ c.toNat ≤ 90
  · have h1 := pyCharLower_toNat_of_upper h
    exact pyCharLower_eq_self (by omega)
  · rw [pyCharLower_eq_self h, pyCharLower_eq_self h]

theorem pyIsSpace_pyCharLower (c : Char) : pyIsSpace (pyCharLower c) = pyIsSpace c := by
  by_cases h : 65 ≤ c.toNat ∧ c.toNat ≤ 90
  · have h1 := pyCharLower_toNat_of_upper h
    simp only [pyIsSpace, h1]
    rw [decide_eq_decide]
    omega
  · rw [pyCharLower_eq_self h]

theorem head?_dropWhile_false {α : Type _} (p : α → Bool) (l : List α) :
    ∀ x, (l.dropWhile p).head? = some x → p x = false := by
  intro x hx
  have h := List.head?_dropWhile_not p l
  rw [hx] at h
  exact h

theorem dropWhile_eq_self_of_head {α : Type _} (p : α → Bool) (l : List α)
    (h : ∀ x, l.head? = some x → p x = false) : l.dropWhile p = l := by
  cases l with
  | nil => rfl
  | cons x xs => simp [List.dropWhile_cons, h x rfl]

theorem pyStripList_idem (l : List Char) : pyStripList (pyStripList l) = pyStripList l := by
  unfold pyStripList
  have hBA : (l.dropWhile pyIsSpace).reverse.dropWhile pyIsSpace <:+
      (l.dropWhile pyIsSpace).reverse := List.dropWhile_suffix _
  obtain ⟨t, ht⟩ := hBA
  have hRA : ((l.dropWhile pyIsSpace).reverse.dropWhile pyIsSpace).reverse ++ t.reverse =
      l.dropWhile pyIsSpace := by
    have := congrArg List.reverse ht
    simpa using this
  have h1 : ((l.dropWhile pyIsSpace).reverse.dropWhile pyIsSpace).reverse.dropWhile pyIsSpace =
      ((l.dropWhile pyIsSpace).reverse.dropWhile pyIsSpace).reverse := by
    apply dropWhile_eq_self_of_head
    intro x hx
    apply head?_dropWhile_false pyIsSpace l
    cases hR : ((l.dropWhile pyIsSpace).reverse.dropWhile pyIsSpace).reverse with
    | nil => rw [hR] at hx; exact absurd hx (by simp)
    | cons y ys =>
      rw [hR] at hx
      simp only [List.head?_cons, Option.some.injEq] at hx
      rw [← hRA, hR]
      simp [← hx]
  rw [h1]
  have h2 : ((l.dropWhile pyIsSpace).reverse.dropWhile pyIsSpace).reverse.reverse.dropWhile
      pyIsSpace = (l.dropWhile pyIsSpace).reverse.dropWhile pyIsSpace := by
    rw [List.reverse_reverse]
    apply dropWhile_eq_self_of_head
    intro x hx
    exact head?_dropWhile_false pyIsSpace (l.dropWhile pyIsSpace).reverse x hx
  rw [h2]

theorem pyStrip_pyStrip (s : String) : pyStrip (pyStrip s) = pyStrip s :=
  congrArg String.mk (pyStripList_idem s.data)

theorem pyLower_pyLower (s : String) : pyLower (pyLower s) = pyLower s := by
  unfold pyLower
  refine congrArg String.mk ?_
  rw [List.map_map]
  induction s.data with
  | nil => rfl
  | cons c t ih => simp [Function.comp, pyCharLower_fix, ih]

theorem pyStripList_map_pyCharLower (l : List Char) :
    pyStripList (l.map pyCharLower) = (pyStripList l).map pyCharLower := by
  unfold pyStripList
  have hp : (pyIsSpace ∘ pyCharLower) = pyIsSpace := funext pyIsSpace_pyCharLower
  rw [List.dropWhile_map, hp, ← List.map_reverse, List.dropWhile_map, hp, ← List.map_reverse]

theorem pyLower_pyStrip (s : String) : pyLower (pyStrip s) = pyStrip (pyLower s) := by
  unfold pyLower pyStrip
  exact congrArg String.mk (pyStripList_map_pyCharLower s.data).symm

theorem pyLowerStrip_idem (s : String) : pyLowerStrip (pyLowerStrip s) = pyLowerStrip s := by
  unfold pyLowerStrip
  rw [pyLower_pyStrip, pyLower_pyLower, pyStrip_pyStrip]

/-! ### Helper lemmas on the skills matcher -/

theorem map_snd_filter_snd {β : Type _} (p : ℚ → Bool) (l : List (β × ℚ)) :
    (l.filter (fun x => p x.2)).map Prod.snd = (l.map Prod.snd).filter p := by
  induction l with
  | nil => rfl
  | cons x t ih =>
    cases h : p x.2 <;> simp [List.filter_cons, h, ih]

theorem matchSkillsSemantic_fst {m : AIMatcherService} {cs js : List String}
    (hcs : cs ≠ []) (hjs : js ≠ []) :
    (m.matchSkillsSemantic cs js).1 = specSemanticScore m cs js := by
  unfold AIMatcherService.matchSkillsSemantic specSemanticScore specBestSims
  rw [if_neg (by tauto)]
  dsimp only
  rw [map_snd_filter_snd (fun v => decide ((0.7 : ℚ) ≤ v)), List.map_map]
  rfl

theorem matchSkillsSemantic_nonneg (m : AIMatcherService) (cs js : List String) :
    0 ≤ (m.matchSkillsSemantic cs js).1 := by
  unfold AIMatcherService.matchSkillsSemantic
  by_cases h : cs = [] ∨ js = []
  · rw [if_pos h]
  · rw [if_neg h]
    dsimp only
    split
    · exact le_refl 0
    · refine div_nonneg (List.sum_nonneg ?_) (by positivity)
      intro v hv
      simp only [List.mem_map, List.mem_filter] at hv
      obtain ⟨pr, ⟨-, hp⟩, rfl⟩ := hv
      have h7 := of_decide_eq_true hp
      linarith

theorem mem_of_contains_eq_true {l : List String} {x : String} (h : l.contains x = true) :
    x ∈ l :=
  List.elem_iff.1 h

theorem not_mem_of_contains_eq_false {l : List String} {x : String}
    (h : l.contains x = false) : x ∉ l := by
  intro hmem
  have h1 : l.elem x = true := List.elem_iff.2 hmem
  have h2 : l.elem x = false := h
  rw [h1] at h2
  exact Bool.noConfusion h2

theorem mem_matchSkillsSemantic_snd {m : AIMatcherService} {cs js : List String} {x : String}
    (hx : x ∈ (m.matchSkillsSemantic cs js).2) : ∃ y ∈ js, x = pyLowerStrip y := by
  unfold AIMatcherService.matchSkillsSemantic at hx
  by_cases h : cs = [] ∨ js = []
  · rw [if_pos h] at hx
    simp at hx
  · rw [if_neg h] at hx
    dsimp only at hx
    simp only [List.mem_map, List.mem_filter] at hx
    obtain ⟨pr, ⟨⟨a, ⟨y, hy, rfl⟩, rfl⟩, -⟩, rfl⟩ := hx
    exact ⟨y, hy, rfl⟩

theorem mem_specJobSet_normalized {j : JobSchema} {y : String} (hy : y ∈ specJobSet j) :
    pyLowerStrip y = y := by
  unfold specJobSet pySet at hy
  rw [List.mem_dedup] at hy
  obtain ⟨z, hz, rfl⟩ := List.mem_map.1 hy
  exact pyLowerStrip_idem z

theorem specJobSet_ne_nil {j : JobSchema} (h : j.skills ≠ []) : specJobSet j ≠ [] := by
  unfold specJobSet pySet
  simp [List.dedup_eq_nil, h]

theorem specExactScore_le_one (c : CandidateSchema) (j : JobSchema)
    (hjs : specJobSet j ≠ []) : specExactScore c j ≤ 1 := by
  unfold specExactScore
  rw [div_le_one (by exact_mod_cast List.length_pos.mpr hjs)]
  have hsub : ((specCandSet c).filter (fun sk => (specJobSet j).contains sk)) ⊆ specJobSet j := by
    intro x hx
    have hx2 := (List.mem_filter.1 hx).2
    exact List.elem_iff.1 hx2
  have hnd : ((specCandSet c).filter (fun sk => (specJobSet j).contains sk)).Nodup :=
    List.Nodup.filter _ (List.nodup_dedup _)
  exact_mod_cast (List.Nodup.subperm hnd hsub).length_le

theorem min_one_bounds {x : ℚ} (hx : 0 ≤ x) : 0 ≤ min 1 x ∧ min 1 x ≤ 1 :=
  ⟨le_min (by norm_num) hx, min_le_left _ _⟩

theorem calculateSimilarity_bounds (m : AIMatcherService) (a b : String) :
    0 ≤ m.calculateSimilarity a b ∧ m.calculateSimilarity a b ≤ 1 := by
  unfold AIMatcherService.calculateSimilarity
  exact ⟨le_max_left _ _, max_le (by norm_num) (min_le_left _ _)⟩

theorem matchTextSemantic_bounds (m : AIMatcherService) (a b : String) :
    0 ≤ m.matchTextSemantic a b ∧ m.matchTextSemantic a b ≤ 1 := by
  unfold AIMatcherService.matchTextSemantic
  split
  · norm_num
  · exact calculateSimilarity_bounds m a b

theorem exact_if_nonneg {P : Prop} [Decidable P] (a b : ℕ) :
    (0 : ℚ) ≤ if P then (a : ℚ) / (b : ℚ) else 0 := by
  split
  · positivity
  · exact le_refl 0

theorem calculateSkillsMatch_fst_bounds (eng : MatchingEngine) (c : CandidateSchema)
    (j : JobSchema) :
    0 ≤ (eng.calculateSkillsMatch c j).1 ∧ (eng.calculateSkillsMatch c j).1 ≤ 1 := by
  unfold MatchingEngine.calculateSkillsMatch
  by_cases h0 : j.skills = []
  · rw [if_pos h0]
    norm_num
  · rw [if_neg h0]
    dsimp only
    split
    · refine min_one_bounds ?_
      have h1 := exact_if_nonneg (P := pySet (j.skills.map pyLowerStrip) ≠ [])
        ((pySet (c.skills.map pyLowerStrip)).filter
          (fun sk => (pySet (j.skills.map pyLowerStrip)).contains sk)).length
        (pySet (j.skills.map pyLowerStrip)).length
      have h2 := matchSkillsSemantic_nonneg eng.aiMatcher c.skills
        ((pySet (j.skills.map pyLowerStrip)).filter
          (fun sk => !((pySet (c.skills.map pyLowerStrip)).contains sk)))
      nlinarith
    · refine min_one_bounds ?_
      exact exact_if_nonneg _ _

theorem calculateEducationMatch_bounds (eng : MatchingEngine) (c : CandidateSchema)
    (j : JobSchema) :
    0 ≤ eng.calculateEducationMatch c j ∧ eng.calculateEducationMatch c j ≤ 1 := by
  unfold MatchingEngine.calculateEducationMatch
  split
  · norm_num
  · dsimp only
    split
    · norm_num
    · split
      · norm_num
      · exact matchTextSemantic_bounds _ _ _

theorem halfOrSemantic_bounds (m : AIMatcherService) (P : Prop) [Decidable P] (a b : String) :
    0 ≤ (if P then (0.5 : ℚ) else m.matchTextSemantic a b) ∧
      (if P then (0.5 : ℚ) else m.matchTextSemantic a b) ≤ 1 := by
  split
  · norm_num
  · exact matchTextSemantic_bounds m a b

theorem calculateSemanticMatch_bounds (eng : MatchingEngine) (c : CandidateSchema)
    (j : JobSchema) :
    0 ≤ eng.calculateSemanticMatch c j ∧ eng.calculateSemanticMatch c j ≤ 1 := by
  unfold MatchingEngine.calculateSemanticMatch
  exact halfOrSemantic_bounds _ _ _ _

theorem ite_chain_loc_bounds (m : AIMatcherService) (P1 P2 P3 : Prop) [Decidable P1]
    [Decidable P2] [Decidable P3] (a b : String) :
    0 ≤ (if P1 then (1 : ℚ)
        else if P2 then 1
        else if P3 then 0.8
        else m.calculateSimilarity a b * 0.6) ∧
      (if P1 then (1 : ℚ)
        else if P2 then 1
        else if P3 then 0.8
        else m.calculateSimilarity a b * 0.6) ≤ 1 := by
  have hb := calculateSimilarity_bounds m a b
  split
  · norm_num
  · split
    · norm_num
    · split
      · norm_num
      · constructor
        · nlinarith [hb.1]
        · nlinarith [hb.1, hb.2]

theorem calculateLocationMatch_bounds (eng : MatchingEngine) (c : CandidateSchema)
    (j : JobSchema) :
    0 ≤ eng.calculateLocationMatch c j ∧ eng.calculateLocationMatch c j ≤ 1 := by
  unfold MatchingEngine.calculateLocationMatch
  split
  · norm_num
  · split
    · norm_num
    · exact ite_chain_loc_bounds eng.aiMatcher _ _ _ _ _

theorem calculateExperienceMatch_bounds (c : CandidateSchema) (j : JobSchema)
    (hc : 0 ≤ c.experience_years)
    (hr : ∀ r : ℚ, j.min_experience_years = some r → 0 ≤ r) :
    0 ≤ MatchingEngine.calculateExperienceMatch c j ∧
      MatchingEngine.calculateExperienceMatch c j ≤ 1 := by
  unfold MatchingEngine.calculateExperienceMatch
  cases hj : j.min_experience_years with
  | none => norm_num
  | some r =>
    have hr0 : 0 ≤ r := hr r hj
    dsimp only
    by_cases hz : r = 0
    · rw [if_pos hz]
      norm_num
    · rw [if_neg hz]
      have hrpos : 0 < r := lt_of_le_of_ne hr0 (Ne.symm hz)
      by_cases hle : r ≤ c.experience_years
      · rw [if_pos hle]
        have hbonus : 0 ≤ min (0.2 : ℚ) ((c.experience_years - r) / (r * 2)) :=
          le_min (by norm_num) (div_nonneg (by linarith) (by linarith))
        exact ⟨le_min (by norm_num) (by linarith), min_le_left _ _⟩
      · rw [if_neg hle]
        push_neg at hle
        refine ⟨le_max_left _ _, max_le (by norm_num) ?_⟩
        rw [div_le_one hrpos]
        linarith

/-! ### Claim theorems -/

/-- C1: the claim states that `determine_match_quality` classifies every score
against the process-wide configured thresholds into a tier string.  In the
code, the attribute names it reads (`EXCELLENT_MATCH_THRESHOLD`,
`GOOD_MATCH_THRESHOLD`, `MIN_MATCH_THRESHOLD`) are not fields of `Settings`
(which declares `EXCELLENT_MATCH_SCORE`, `GOOD_MATCH_SCORE`,
`MIN_MATCH_SCORE`), so the very first read raises `AttributeError` for every
score and no tier is ever returned. -/
theorem determineMatchQuality_always_raises (eng : MatchingEngine) (score : ℚ) :
    eng.determineMatchQuality score =
      Except.error "AttributeError: EXCELLENT_MATCH_THRESHOLD" :=
  rfl

/-- C2 counterexample: a job whose requirement text contains the education
keyword `bachelor`, paired with a candidate whose education list is empty,
makes the education matcher return 0.5 — not the 0.3 the claim states —
because the empty-education neutral guard fires before the keyword scan. -/
theorem educationMatch_empty_education_counterexample :
    cexCandidateC2.education = [] ∧
    specHasEduRequirement cexJobC2 = true ∧
    zeroEngine.calculateEducationMatch cexCandidateC2 cexJobC2 = 0.5 ∧
    (0.5 : ℚ) ≠ 0.3 := by
  refine ⟨rfl, by decide, ?_, by norm_num⟩
  simp [MatchingEngine.calculateEducationMatch, cexCandidateC2]

/-- C2 amended: for every candidate and job such that the requirement strings
of the job contain at least one education keyword but the education list of
the candidate is empty, the education matcher returns the neutral default 0.5 (the
empty-education guard precedes the keyword scan, so the 0.3 branch is
unreachable). -/
theorem educationMatch_empty_education (eng : MatchingEngine) (candidate : CandidateSchema)
    (job : JobSchema) (hEdu : candidate.education = [])
    (hKw : specHasEduRequirement job = true) :
    eng.calculateEducationMatch candidate job = 0.5 := by
  simp [MatchingEngine.calculateEducationMatch, hEdu]

/-- C2 witness: the amended statement evaluated on the concrete counterexample
input. -/
theorem educationMatch_empty_education_witness :
    cexCandidateC2.education = [] ∧ specHasEduRequirement cexJobC2 = true ∧
    zeroEngine.calculateEducationMatch cexCandidateC2 cexJobC2 = 0.5 :=
  ⟨rfl, by decide,
    educationMatch_empty_education zeroEngine cexCandidateC2 cexJobC2 rfl (by decide)⟩

/-- C3 (code-bug evaluation): on a concrete three-candidate batch,
`match_batch` propagates the `AttributeError` raised inside `match_single` by
`determine_match_quality`, so no ranked result list is ever produced. -/
theorem matchBatch_raises_on_test_batch :
    zeroEngine.matchBatch [cexCandidateC3a, cexCandidateC3b, cexCandidateC3c] cexJobC3 =
      Except.error "AttributeError: EXCELLENT_MATCH_THRESHOLD" :=
  rfl

/-- C5 counterexample: with the schema-permitted negative minimum experience
`-1` and candidate experience `0`, the meets-requirement branch returns 0.5,
refuting the claim that this branch can only ever yield exactly 1.0. -/
theorem experienceMatch_negative_requirement_counterexample :
    cexJobC5.min_experience_years = some (-1) ∧
    (-1 : ℚ) ≤ cexCandidateC5.experience_years ∧
    MatchingEngine.calculateExperienceMatch cexCandidateC5 cexJobC5 = 0.5 ∧
    (0.5 : ℚ) ≠ 1 := by
  refine ⟨rfl, by norm_num [cexCandidateC5], ?_, by norm_num⟩
  norm_num [MatchingEngine.calculateExperienceMatch, cexCandidateC5, cexJobC5, min_def]

/-- C5 amended: absent or zero requirement yields 1.0 (even for zero candidate
experience); with requirement `r ≠ 0` present, the meets-requirement branch
returns `min 1 (1 + min 0.2 ((c - r) / (2r)))`, which equals exactly 1.0
whenever `r > 0` (for the schema-permitted `r < 0` it can be smaller); the
shortfall branch returns `max 0 (c / r)`. -/
theorem experienceMatch_spec (candidate : CandidateSchema) (job : JobSchema) :
    ((job.min_experience_years = none ∨ job.min_experience_years = some 0) →
      MatchingEngine.calculateExperienceMatch candidate job = 1) ∧
    (∀ r : ℚ, job.min_experience_years = some r → r ≠ 0 →
      (r ≤ candidate.experience_years →
        MatchingEngine.calculateExperienceMatch candidate job =
          min 1 (1 + min 0.2 ((candidate.experience_years - r) / (r * 2))) ∧
        (0 < r → MatchingEngine.calculateExperienceMatch candidate job = 1)) ∧
      (candidate.experience_years < r →
        MatchingEngine.calculateExperienceMatch candidate job =
          max 0 (candidate.experience_years / r))) := by
  unfold MatchingEngine.calculateExperienceMatch
  refine ⟨?_, ?_⟩
  · rintro (h | h) <;> rw [h]
    simp
  · intro r hr hr0
    rw [hr]
    simp only [hr0, if_false]
    constructor
    · intro hle
      rw [if_pos hle]
      refine ⟨rfl, ?_⟩
      intro hrpos
      have hb : 0 ≤ min (0.2 : ℚ) ((candidate.experience_years - r) / (r * 2)) := by
        apply le_min (by norm_num)
        apply div_nonneg (by linarith) (by linarith)
      rw [min_eq_left (by linarith)]
    · intro hlt
      rw [if_neg (by exact not_le.mpr hlt)]

/-- C5 witness: the amended statement evaluated on concrete inputs covering
all three branches. -/
theorem experienceMatch_spec_witness :
    MatchingEngine.calculateExperienceMatch witCandidateExp5 witJobNoSkills = 1 ∧
    MatchingEngine.calculateExperienceMatch witCandidateExp5 witJobReq3 = 1 ∧
    MatchingEngine.calculateExperienceMatch witCandidateExp5 witJobReq10 =
      max 0 (witCandidateExp5.experience_years / 10) :=
  ⟨(experienceMatch_spec witCandidateExp5 witJobNoSkills).1 (Or.inl rfl),
    (((experienceMatch_spec witCandidateExp5 witJobReq3).2 3 rfl (by norm_num)).1
      (by norm_num [witCandidateExp5])).2 (by norm_num),
    ((experienceMatch_spec witCandidateExp5 witJobReq10).2 10 rfl (by norm_num)).2
      (by norm_num [witCandidateExp5])⟩

/-- C6: the aggregate score is the weighted sum of the four primary
sub-scores; a present location sub-score adds a `location * 0.05` boost and
clamps the total at 1.0, while an absent location sub-score leaves the
weighted sum unboosted and unclamped. -/
theorem calculateOverallScore_spec (s : Settings) (m : AIMatcherService) (b : MatchBreakdown) :
    (MatchingEngine.mk s m).calculateOverallScore b =
      match b.location_match with
      | none =>
          b.skills_match * s.SKILLS_WEIGHT + b.experience_match * s.EXPERIENCE_WEIGHT +
          b.education_match * s.EDUCATION_WEIGHT + b.semantic_match * s.SEMANTIC_WEIGHT
      | some l =>
          min 1
            (b.skills_match * s.SKILLS_WEIGHT + b.experience_match * s.EXPERIENCE_WEIGHT +
             b.education_match * s.EDUCATION_WEIGHT + b.semantic_match * s.SEMANTIC_WEIGHT +
             l * 0.05) := by
  cases hb : b.location_match <;> simp [MatchingEngine.calculateOverallScore, hb]

/-- C9: `validate_weights` succeeds exactly when the four weights sum to 1.0
within the strict 0.01 tolerance, and the module-level startup check accepts a
configuration exactly when `validate_weights` does (otherwise it raises before
any match can run). -/
theorem validateWeights_iff (s : Settings) :
    (s.validateWeights = true ↔
      |s.SKILLS_WEIGHT + s.EXPERIENCE_WEIGHT + s.SEMANTIC_WEIGHT + s.EDUCATION_WEIGHT - 1| <
        1 / 100) ∧
    (configInit s = Except.ok s ↔ s.validateWeights = true) := by
  constructor
  · rw [Settings.validateWeights, decide_eq_true_iff]
    norm_num
  · unfold configInit
    by_cases hb : s.validateWeights = true
    · simp [hb]
    · simp [hb]

/-- C10: the breakdown built by `match_single` always carries a location
sub-score (the location calculator is total), so the 0.05 location boost and
the clamp of the overall score at 1.0 apply to every single-match result. -/
theorem matchSingle_location_always (s : Settings) (m : AIMatcherService)
    (candidate : CandidateSchema) (job : JobSchema) :
    ((MatchingEngine.mk s m).matchSingleBreakdown candidate job).location_match =
      some ((MatchingEngine.mk s m).calculateLocationMatch candidate job) ∧
    (MatchingEngine.mk s m).matchSingleOverall candidate job =
      min 1
        (((MatchingEngine.mk s m).matchSingleBreakdown candidate job).skills_match *
            s.SKILLS_WEIGHT +
          ((MatchingEngine.mk s m).matchSingleBreakdown candidate job).experience_match *
            s.EXPERIENCE_WEIGHT +
          ((MatchingEngine.mk s m).matchSingleBreakdown candidate job).education_match *
            s.EDUCATION_WEIGHT +
          ((MatchingEngine.mk s m).matchSingleBreakdown candidate job).semantic_match *
            s.SEMANTIC_WEIGHT +
          (MatchingEngine.mk s m).calculateLocationMatch candidate job * 0.05) ∧
    (MatchingEngine.mk s m).matchSingleOverall candidate job ≤ 1 := by
  refine ⟨rfl, ?_, ?_⟩
  · rfl
  · exact min_le_left _ _

/-- C8: the matched-skills and missing-skills lists returned by the skills
matcher are disjoint, and every element of either list is a token of the
required-skill set of the job (semantic-fallback matches are recorded as normalized
job-skill tokens). -/
theorem skillsMatch_lists_spec (s : Settings) (m : AIMatcherService)
    (candidate : CandidateSchema) (job : JobSchema) :
    (∀ x ∈ ((MatchingEngine.mk s m).calculateSkillsMatch candidate job).2.1,
        x ∉ ((MatchingEngine.mk s m).calculateSkillsMatch candidate job).2.2) ∧
    (∀ x ∈ ((MatchingEngine.mk s m).calculateSkillsMatch candidate job).2.1,
        x ∈ specJobSet job) ∧
    (∀ x ∈ ((MatchingEngine.mk s m).calculateSkillsMatch candidate job).2.2,
        x ∈ specJobSet job) := by
  unfold MatchingEngine.calculateSkillsMatch
  by_cases h0 : job.skills = []
  · rw [if_pos h0]
    simp
  · rw [if_neg h0]
    dsimp only
    split
    · refine ⟨?_, ?_, ?_⟩
      · intro x hx hx'
        have hx'f := List.mem_filter.1 hx'
        have hsemF : (AIMatcherService.matchSkillsSemantic m candidate.skills
            ((pySet (job.skills.map pyLowerStrip)).filter
              (fun sk => !((pySet (candidate.skills.map pyLowerStrip)).contains sk)))).2.contains
              x = false := by
          simpa only [Bool.not_eq_true'] using hx'f.2
        have hm0 : (pySet (candidate.skills.map pyLowerStrip)).contains x = false := by
          simpa only [Bool.not_eq_true'] using (List.mem_filter.1 hx'f.1).2
        rcases List.mem_append.1 hx with hxa | hxb
        · exact absurd (List.mem_filter.1 hxa).1 (not_mem_of_contains_eq_false hm0)
        · exact absurd hxb (not_mem_of_contains_eq_false hsemF)
      · intro x hx
        rcases List.mem_append.1 hx with hxa | hxb
        · exact mem_of_contains_eq_true (List.mem_filter.1 hxa).2
        · obtain ⟨y, hy, rfl⟩ := mem_matchSkillsSemantic_snd hxb
          have hyj : y ∈ specJobSet job := (List.mem_filter.1 hy).1
          rw [mem_specJobSet_normalized hyj]
          exact hyj
      · intro x hx
        exact (List.mem_filter.1 (List.mem_filter.1 hx).1).1
    · refine ⟨?_, ?_, ?_⟩
      · intro x hx hx'
        have hm0 : (pySet (candidate.skills.map pyLowerStrip)).contains x = false := by
          simpa only [Bool.not_eq_true'] using (List.mem_filter.1 hx').2
        exact absurd (List.mem_filter.1 hx).1 (not_mem_of_contains_eq_false hm0)
      · intro x hx
        exact mem_of_contains_eq_true (List.mem_filter.1 hx).2
      · intro x hx
        exact (List.mem_filter.1 hx).1

/-- C8 witness: the statement applied at a concrete input, discharging a
membership hypothesis there. -/
theorem skillsMatch_lists_spec_witness :
    "python" ∈ ((MatchingEngine.mk defaultSettings zeroMatcher).calculateSkillsMatch
        witCandidateC4 witJobC4b).2.1 ∧
    "python" ∉ ((MatchingEngine.mk defaultSettings zeroMatcher).calculateSkillsMatch
        witCandidateC4 witJobC4b).2.2 :=
  ⟨by decide,
    (skillsMatch_lists_spec defaultSettings zeroMatcher witCandidateC4 witJobC4b).1 "python"
      (by decide)⟩

/-- C4: with no required skills the skills matcher returns score 1.0 with
empty matched and missing lists; otherwise, with missing required skills
present and a non-empty candidate skill list, the final score is
`min 1 (exactScore * 0.7 + semanticScore * 0.3)` where semanticScore is the
mean of the best-match similarities accepted at the 0.7 threshold (0.0 when
none); with no missing required skills the final score is exactly exactScore
and the result does not depend on the similarity provider (no provider call is
made). -/
theorem skillsMatch_score_spec (s : Settings) (m : AIMatcherService)
    (candidate : CandidateSchema) (job : JobSchema) :
    (job.skills = [] →
      (MatchingEngine.mk s m).calculateSkillsMatch candidate job = (1, [], [])) ∧
    (specMissing candidate job ≠ [] → candidate.skills ≠ [] →
      ((MatchingEngine.mk s m).calculateSkillsMatch candidate job).1 =
        min 1 (specExactScore candidate job * 0.7 +
          specSemanticScore m candidate.skills (specMissing candidate job) * 0.3)) ∧
    (job.skills ≠ [] → specMissing candidate job = [] →
      ((MatchingEngine.mk s m).calculateSkillsMatch candidate job).1 =
        specExactScore candidate job ∧
      ∀ (s2 : Settings) (m2 : AIMatcherService),
        (MatchingEngine.mk s2 m2).calculateSkillsMatch candidate job =
          (MatchingEngine.mk s m).calculateSkillsMatch candidate job) := by
  refine ⟨?_, ?_, ?_⟩
  · intro h
    unfold MatchingEngine.calculateSkillsMatch
    rw [if_pos h]
  · intro hmiss hcs
    have hjs : job.skills ≠ [] := by
      intro hj
      apply hmiss
      unfold specMissing specJobSet pySet
      rw [hj]
      rfl
    have hmiss' : (pySet (job.skills.map pyLowerStrip)).filter
        (fun sk => !((pySet (candidate.skills.map pyLowerStrip)).contains sk)) ≠ [] := hmiss
    have hjset : pySet (job.skills.map pyLowerStrip) ≠ [] := specJobSet_ne_nil hjs
    unfold MatchingEngine.calculateSkillsMatch
    rw [if_neg hjs]
    dsimp only
    rw [if_pos (And.intro hmiss' hcs)]
    dsimp only
    rw [if_pos hjset, matchSkillsSemantic_fst hcs hmiss']
    rfl
  · intro hjs hmiss
    have hnot : ¬((pySet (job.skills.map pyLowerStrip)).filter
        (fun sk => !((pySet (candidate.skills.map pyLowerStrip)).contains sk)) ≠ [] ∧
        candidate.skills ≠ []) := fun hcond => hcond.1 hmiss
    have hjset : pySet (job.skills.map pyLowerStrip) ≠ [] := specJobSet_ne_nil hjs
    unfold MatchingEngine.calculateSkillsMatch
    rw [if_neg hjs]
    dsimp only
    rw [if_neg hnot]
    dsimp only
    constructor
    · rw [if_pos hjset]
      exact min_eq_right (specExactScore_le_one candidate job (specJobSet_ne_nil hjs))
    · intro s2 m2
      rw [if_neg hjs, if_neg hnot]

/-- C4 witness: the semantic-fallback branch of the statement instantiated on
a concrete candidate, job and provider, with its hypotheses discharged. -/
theorem skillsMatch_score_spec_witness :
    specMissing witCandidateC4 witJobC4 ≠ [] ∧ witCandidateC4.skills ≠ [] ∧
    ((MatchingEngine.mk defaultSettings highMatcher).calculateSkillsMatch
        witCandidateC4 witJobC4).1 =
      min 1 (specExactScore witCandidateC4 witJobC4 * 0.7 +
        specSemanticScore highMatcher witCandidateC4.skills
          (specMissing witCandidateC4 witJobC4) * 0.3) :=
  ⟨by decide, by decide,
    (skillsMatch_score_spec defaultSettings highMatcher witCandidateC4 witJobC4).2.1
      (by decide) (by decide)⟩

/-- C7: every sub-score of the breakdown computed by `match_single` and the
overall compatibility score lie in `[0, 1]`.  The hypotheses record input
validity: the experience of the candidate is non-negative (the schema enforces
this) and a present minimum-experience requirement is non-negative. -/
theorem matchSingle_scores_in_unit (m : AIMatcherService) (candidate : CandidateSchema)
    (job : JobSchema) (hc : 0 ≤ candidate.experience_years)
    (hr : ∀ r : ℚ, job.min_experience_years = some r → 0 ≤ r) :
    (0 ≤ ((MatchingEngine.mk defaultSettings m).matchSingleBreakdown candidate job).skills_match ∧
      ((MatchingEngine.mk defaultSettings m).matchSingleBreakdown candidate job).skills_match ≤
        1) ∧
    (0 ≤ ((MatchingEngine.mk defaultSettings m).matchSingleBreakdown candidate
          job).experience_match ∧
      ((MatchingEngine.mk defaultSettings m).matchSingleBreakdown candidate
          job).experience_match ≤ 1) ∧
    (0 ≤ ((MatchingEngine.mk defaultSettings m).matchSingleBreakdown candidate
          job).education_match ∧
      ((MatchingEngine.mk defaultSettings m).matchSingleBreakdown candidate
          job).education_match ≤ 1) ∧
    (0 ≤ ((MatchingEngine.mk defaultSettings m).matchSingleBreakdown candidate
          job).semantic_match ∧
      ((MatchingEngine.mk defaultSettings m).matchSingleBreakdown candidate
          job).semantic_match ≤ 1) ∧
    (∀ l : ℚ,
      ((MatchingEngine.mk defaultSettings m).matchSingleBreakdown candidate job).location_match =
        some l → 0 ≤ l ∧ l ≤ 1) ∧
    (0 ≤ (MatchingEngine.mk defaultSettings m).matchSingleOverall candidate job ∧
      (MatchingEngine.mk defaultSettings m).matchSingleOverall candidate job ≤ 1) := by
  have hsk := calculateSkillsMatch_fst_bounds (MatchingEngine.mk defaultSettings m) candidate job
  have hex := calculateExperienceMatch_bounds candidate job hc hr
  have hed := calculateEducationMatch_bounds (MatchingEngine.mk defaultSettings m) candidate job
  have hse := calculateSemanticMatch_bounds (MatchingEngine.mk defaultSettings m) candidate job
  have hlo := calculateLocationMatch_bounds (MatchingEngine.mk defaultSettings m) candidate job
  refine ⟨hsk, hex, hed, hse, ?_, ?_⟩
  · intro l hl
    have hl2 : (MatchingEngine.mk defaultSettings m).calculateLocationMatch candidate job = l :=
      Option.some.inj hl
    rw [← hl2]
    exact hlo
  · have hbase : (MatchingEngine.mk defaultSettings m).matchSingleOverall candidate job =
        min 1
          (((MatchingEngine.mk defaultSettings m).calculateSkillsMatch candidate job).1 * 0.40 +
            MatchingEngine.calculateExperienceMatch candidate job * 0.25 +
            (MatchingEngine.mk defaultSettings m).calculateEducationMatch candidate job * 0.10 +
            (MatchingEngine.mk defaultSettings m).calculateSemanticMatch candidate job * 0.25 +
            (MatchingEngine.mk defaultSettings m).calculateLocationMatch candidate job * 0.05) :=
      rfl
    rw [hbase]
    constructor
    · refine le_min (by norm_num) ?_
      have t1 : (0 : ℚ) ≤
          ((MatchingEngine.mk defaultSettings m).calculateSkillsMatch candidate job).1 * 0.40 :=
        mul_nonneg hsk.1 (by norm_num)
      have t2 : (0 : ℚ) ≤ MatchingEngine.calculateExperienceMatch candidate job * 0.25 :=
        mul_nonneg hex.1 (by norm_num)
      have t3 : (0 : ℚ) ≤
          (MatchingEngine.mk defaultSettings m).calculateEducationMatch candidate job * 0.10 :=
        mul_nonneg hed.1 (by norm_num)
      have t4 : (0 : ℚ) ≤
          (MatchingEngine.mk defaultSettings m).calculateSemanticMatch candidate job * 0.25 :=
        mul_nonneg hse.1 (by norm_num)
      have t5 : (0 : ℚ) ≤
          (MatchingEngine.mk defaultSettings m).calculateLocationMatch candidate job * 0.05 :=
        mul_nonneg hlo.1 (by norm_num)
      linarith
    · exact min_le_left _ _

/-- C7 witness: the statement instantiated on a concrete provider, candidate
and job, with the validity hypotheses discharged. -/
theorem matchSingle_scores_in_unit_witness :
    (0 : ℚ) ≤ witCandidateC4.experience_years ∧
    (0 ≤ (MatchingEngine.mk defaultSettings highMatcher).matchSingleOverall witCandidateC4
        witJobC4 ∧
      (MatchingEngine.mk defaultSettings highMatcher).matchSingleOverall witCandidateC4
        witJobC4 ≤ 1) := by
  constructor
  · norm_num [witCandidateC4]
  · exact (matchSingle_scores_in_unit highMatcher witCandidateC4 witJobC4
      (by norm_num [witCandidateC4]) (fun r hr => by simp [witJobC4] at hr)).2.2.2.2.2

end MicroSelect
